import Mathlib

/-!
Verification of the byte-blob module `src/recapn/src/data.rs` of the
`recapn` serialization library: validated construction of blob views,
the immutable `Reader` and mutable `Builder` views, their accessors,
mutation, and the byte-wise cross-view equality layer.

The module consumes the external pointer-primitive layer
(`crate::ptr::{BlobReader, BlobBuilder}`) and the list-encoding
`ElementSize` type, which are outside this source excerpt; those are
modelled from the specification's description of them. The exact
numeric value of the maximum blob length is defined by that external
layer and is not visible here, so the model takes it as an explicit
parameter `MAX`: every theorem below holds for every possible value.
-/

namespace Recapn

/-- A byte, the element type of a blob. -/
abbrev Byte := Fin 256

/-- Modelled from the spec: the external pointer-primitive layer's
immutable blob handle `crate::ptr::BlobReader` — "(pointer to first
byte, length) borrowed for a lifetime, already known to satisfy
`length ≤ MAX_BLOB_LEN`". In the shallow embedding the pointer+length
pair is represented by the byte sequence it designates. -/
structure BlobReader where
  data : List Byte
deriving DecidableEq

/-- Modelled from the spec: the validating constructor of the external
layer — "a validating constructor taking a byte slice and returning an
optional handle (fails when length exceeds the maximum)". `MAX` is the
format's maximum blob length, a constant of the external layer. -/
def BlobReader.new (MAX : Nat) (s : List Byte) : Option BlobReader :=
  if s.length ≤ MAX then some ⟨s⟩ else none

/-- Modelled from the spec: the external layer's `empty()` constructor. -/
def BlobReader.empty : BlobReader := ⟨[]⟩

/-- Modelled from the spec: the external layer's unchecked/trusted
constructor taking a raw pointer and length ("used only when the caller
already guarantees validity"). In the embedding the designated bytes
are passed directly. -/
def BlobReader.new_unchecked (d : List Byte) : BlobReader := ⟨d⟩

/-- Modelled from the spec: the external layer's length accessor. -/
def BlobReader.length (r : BlobReader) : Nat := r.data.length

/-- Modelled from the spec: the external layer's direct
slice-materialization accessor. -/
def BlobReader.materialize (r : BlobReader) : List Byte := r.data

/-- Modelled from the spec: the external pointer-primitive layer's
mutable blob handle `crate::ptr::BlobBuilder` — "(pointer to first
byte, length) borrowed for a lifetime, same length invariant, granting
write access to the referenced bytes". -/
structure BlobBuilder where
  data : List Byte
deriving DecidableEq

/-- Modelled from the spec: the external layer's `empty()` constructor
for the mutable handle. -/
def BlobBuilder.empty : BlobBuilder := ⟨[]⟩

/-- Modelled from the spec: the external layer's length accessor for
the mutable handle. -/
def BlobBuilder.length (b : BlobBuilder) : Nat := b.data.length

/-- Modelled from the spec: the external layer's raw-data-pointer
accessor; in the embedding the designated bytes stand for the pointer. -/
def BlobBuilder.rawData (b : BlobBuilder) : List Byte := b.data

/-- Modelled from the spec: the list-encoding subsystem's element-size
type (`crate::list::ElementSize`), of which the spec names the
pointer-sized slot; the other wire element sizes of the format are
included for completeness. -/
inductive ElementSize where
  | Void
  | Bit
  | Byte
  | TwoBytes
  | FourBytes
  | EightBytes
  | Pointer
  | InlineComposite
deriving DecidableEq

/-- `TryFromSliceError`: the blob-construction error, a tuple struct
around the unit value (`pub struct TryFromSliceError(pub(crate) ());`). -/
structure TryFromSliceError where
  payload : Unit
deriving DecidableEq

/-- The `fmt::Display` implementation for `TryFromSliceError`: it
writes a single fixed string. -/
def TryFromSliceError.display (_e : TryFromSliceError) : String :=
  "attempted to create a data blob from too large a slice"

/-- The type-level placeholder `Family`: a data-free marker used by
generic schema code (`Data<T = Family>` defaults to it). -/
structure Family where
deriving DecidableEq

/-- The generic blob container `pub struct Data<T = Family>(T);`:
wraps exactly one underlying representation handle. -/
structure Data (T : Type) where
  inner : T
deriving DecidableEq

/-- `ty::ListValue for Data`: the blob type's declared list element
size, `const ELEMENT_SIZE: ElementSize = ElementSize::Pointer;`. -/
def Data.ELEMENT_SIZE : ElementSize := ElementSize.Pointer

/-- `pub type Reader<'a> = Data<ptr::Reader<'a>>;` -/
abbrev Reader := Data BlobReader

/-- `pub type Builder<'a> = Data<ptr::Builder<'a>>;` -/
abbrev Builder := Data BlobBuilder

/-- `Reader::empty()`: wraps the external layer's empty reader handle. -/
def Reader.empty : Reader := ⟨BlobReader.empty⟩

/-- The panic message of `Reader::from_slice` on an oversized slice. -/
def fromSlicePanicMessage : String :=
  "slice is too large to be contained within a cap'n proto message"

/-- `Reader::from_slice(slice)`: calls `ptr::Reader::new`; on `None`
it panics with `fromSlicePanicMessage`. The panic is modelled as the
error branch of `Except String`. -/
def Reader.from_slice (MAX : Nat) (s : List Byte) : Except String Reader :=
  match BlobReader.new MAX s with
  | some r => Except.ok ⟨r⟩
  | none => Except.error fromSlicePanicMessage

/-- `Reader::try_from_slice(slice)`: calls `ptr::Reader::new`; `None`
becomes `Err(TryFromSliceError(()))`. -/
def Reader.try_from_slice (MAX : Nat) (s : List Byte) :
    Except TryFromSliceError Reader :=
  match BlobReader.new MAX s with
  | some b => Except.ok ⟨b⟩
  | none => Except.error ⟨()⟩

/-- `Reader::len()`: `self.0.len().get()`. -/
def Reader.len (r : Reader) : Nat := BlobReader.length r.inner

/-- `Reader::is_empty()`: `self.len() == 0`. -/
def Reader.is_empty (r : Reader) : Bool := Reader.len r == 0

/-- `Reader::as_slice()`: `self.0.as_slice()`, the zero-copy
projection to the underlying bytes. -/
def Reader.as_slice (r : Reader) : List Byte := BlobReader.materialize r.inner

/-- `Default for Reader`: `Self::empty()`. -/
def Reader.default : Reader := Reader.empty

/-- `PartialEq<Reader> for Reader`: `self.as_slice() == other.as_slice()`. -/
def Reader.eq (a b : Reader) : Bool := Reader.as_slice a == Reader.as_slice b

/-- `PartialEq<[u8]> for Reader`: `self.as_slice() == other`. -/
def Reader.eqSlice (a : Reader) (s : List Byte) : Bool := Reader.as_slice a == s

/-- `PartialEq<Reader> for [u8]`: `self == other.as_slice()`. -/
def sliceEqReader (s : List Byte) (a : Reader) : Bool := s == Reader.as_slice a

/-- `Builder::empty()`. -/
def Builder.empty : Builder := ⟨BlobBuilder.empty⟩

/-- `Builder::as_reader()`: `ptr::Reader::new_unchecked(self.0.data(),
self.0.len())` — an immutable reader over the same pointer and length,
not a copy. -/
def Builder.as_reader (b : Builder) : Reader :=
  ⟨BlobReader.new_unchecked (BlobBuilder.rawData b.inner)⟩

/-- `Builder::len()`: `self.0.len().get()`. -/
def Builder.len (b : Builder) : Nat := BlobBuilder.length b.inner

/-- `Builder::is_empty()`: `self.len() == 0`. -/
def Builder.is_empty (b : Builder) : Bool := Builder.len b == 0

/-- `Builder::as_slice()`: `slice::from_raw_parts(self.0.data(),
self.len())` — the builder's bytes, read-only. -/
def Builder.as_slice (b : Builder) : List Byte := BlobBuilder.rawData b.inner

/-- A byte write at index `i` through `Builder::as_slice_mut()`: the
returned mutable slice aliases the builder's own memory
(`slice::from_raw_parts_mut(self.0.data(), self.len())`), so storing
`v` at `i` updates the underlying bytes in place. Captured as explicit
state passing over the builder. -/
def Builder.writeByte (b : Builder) (i : Nat) (v : Byte) : Builder :=
  ⟨⟨(BlobBuilder.rawData b.inner).set i v⟩⟩

/-- `PartialEq<Builder> for Builder`: `**self == **other`, i.e. slice
equality through `Deref`. -/
def Builder.eq (a b : Builder) : Bool := Builder.as_slice a == Builder.as_slice b

/-- `PartialEq<Reader> for Builder`: `**self == **other`. -/
def Builder.eqReader (b : Builder) (r : Reader) : Bool :=
  Builder.as_slice b == Reader.as_slice r

/-- `PartialEq<Builder> for Reader`: `**self == **other`. -/
def Reader.eqBuilder (r : Reader) (b : Builder) : Bool :=
  Reader.as_slice r == Builder.as_slice b

/-- `PartialEq<[u8]> for Builder`: `**self == *other`. -/
def Builder.eqSlice (b : Builder) (s : List Byte) : Bool :=
  Builder.as_slice b == s

/-- `PartialEq<Builder> for [u8]`: `*self == **other`. -/
def sliceEqBuilder (s : List Byte) (b : Builder) : Bool :=
  s == Builder.as_slice b

/-- The length invariant of a constructed view: `length ≤ MAX`. -/
def ValidReader (MAX : Nat) (r : Reader) : Prop := Reader.len r ≤ MAX

/-- The length invariant of a constructed mutable view. -/
def ValidBuilder (MAX : Nat) (b : Builder) : Prop := Builder.len b ≤ MAX

/-- Byte-wise structural equality as the spec words it: "two views are
equal iff their lengths are equal and all bytes match pairwise". Stated
from the spec's words, to be compared with the source-derived `eq`
functions. -/
def spec_bytewiseEq (xs ys : List Byte) : Prop :=
  xs.length = ys.length ∧
  ∀ i h1 h2, List.get xs ⟨i, h1⟩ = List.get ys ⟨i, h2⟩

lemma beq_iff_spec_bytewiseEq (xs ys : List Byte) :
    (xs == ys) = true ↔ spec_bytewiseEq xs ys := by
  rw [beq_iff_eq, List.ext_get_iff]
  exact Iff.rfl

/-- C1: for every byte slice `s` with `len(s) ≤ MAX_BLOB_LEN`,
`Reader::try_from_slice(s)` returns `Ok` and `as_slice()` on the result
returns exactly the bytes of `s`; for `len(s) > MAX_BLOB_LEN` it
returns the construction error, with no truncation or partial success. -/
theorem try_from_slice_spec (MAX : Nat) (s : List Byte) :
    (s.length ≤ MAX →
      ∃ r, Reader.try_from_slice MAX s = Except.ok r ∧ Reader.as_slice r = s) ∧
    (MAX < s.length →
      Reader.try_from_slice MAX s = Except.error ⟨()⟩) := by
  constructor
  · intro h
    refine ⟨⟨⟨s⟩⟩, ?_, rfl⟩
    simp [Reader.try_from_slice, BlobReader.new, h]
  · intro h
    simp [Reader.try_from_slice, BlobReader.new, Nat.not_le.mpr h]

/-- Witness for C1 at `MAX = 2`, `s = [5, 6]` and `s = [1, 2, 3]`. -/
theorem try_from_slice_spec_witness :
    (∃ r, Reader.try_from_slice 2 [5, 6] = Except.ok r ∧
      Reader.as_slice r = [5, 6]) ∧
    Reader.try_from_slice 2 [1, 2, 3] = Except.error ⟨()⟩ :=
  ⟨(try_from_slice_spec 2 [5, 6]).1 (by decide),
   (try_from_slice_spec 2 [1, 2, 3]).2 (by decide)⟩

/-- C2: equality between any pair drawn from Reader, Builder and raw
byte slice is structural and byte-wise (equal iff lengths are equal and
all bytes match pairwise), reflexive and symmetric; a Builder over
bytes `X` and a Reader over bytes `X` compare equal in both
directions. -/
theorem eq_structural (r r2 : Reader) (b b2 : Builder) (s X : List Byte) :
    (Reader.eq r r2 = true ↔
      spec_bytewiseEq (Reader.as_slice r) (Reader.as_slice r2)) ∧
    (Reader.eqSlice r s = true ↔ spec_bytewiseEq (Reader.as_slice r) s) ∧
    (sliceEqReader s r = true ↔ spec_bytewiseEq s (Reader.as_slice r)) ∧
    (Builder.eq b b2 = true ↔
      spec_bytewiseEq (Builder.as_slice b) (Builder.as_slice b2)) ∧
    (Builder.eqReader b r = true ↔
      spec_bytewiseEq (Builder.as_slice b) (Reader.as_slice r)) ∧
    (Reader.eqBuilder r b = true ↔
      spec_bytewiseEq (Reader.as_slice r) (Builder.as_slice b)) ∧
    (Builder.eqSlice b s = true ↔ spec_bytewiseEq (Builder.as_slice b) s) ∧
    (sliceEqBuilder s b = true ↔ spec_bytewiseEq s (Builder.as_slice b)) ∧
    Reader.eq r r = true ∧ Builder.eq b b = true ∧
    Reader.eq r r2 = Reader.eq r2 r ∧ Builder.eq b b2 = Builder.eq b2 b ∧
    Builder.eqReader b r = Reader.eqBuilder r b ∧
    Builder.eqReader ⟨⟨X⟩⟩ ⟨⟨X⟩⟩ = true ∧
    Reader.eqBuilder ⟨⟨X⟩⟩ ⟨⟨X⟩⟩ = true := by
  refine ⟨beq_iff_spec_bytewiseEq .., beq_iff_spec_bytewiseEq ..,
    beq_iff_spec_bytewiseEq .., beq_iff_spec_bytewiseEq ..,
    beq_iff_spec_bytewiseEq .., beq_iff_spec_bytewiseEq ..,
    beq_iff_spec_bytewiseEq .., beq_iff_spec_bytewiseEq ..,
    ?_, ?_, ?_, ?_, ?_, ?_, ?_⟩
  · simp [Reader.eq]
  · simp [Builder.eq]
  · simp only [Reader.eq, BEq.comm]
  · simp only [Builder.eq, BEq.comm]
  · simp only [Builder.eqReader, Reader.eqBuilder, BEq.comm]
  · simp [Builder.eqReader, Builder.as_slice, Reader.as_slice,
      BlobBuilder.rawData, BlobReader.materialize]
  · simp [Reader.eqBuilder, Builder.as_slice, Reader.as_slice,
      BlobBuilder.rawData, BlobReader.materialize]

/-- Witness for C2 at concrete views over `[5, 6]` and `[7]`. -/
theorem eq_structural_witness :
    (Reader.eq ⟨⟨[5, 6]⟩⟩ ⟨⟨[7]⟩⟩ = true ↔
      spec_bytewiseEq (Reader.as_slice ⟨⟨[5, 6]⟩⟩) (Reader.as_slice ⟨⟨[7]⟩⟩)) ∧
    (Reader.eqSlice ⟨⟨[5, 6]⟩⟩ [5] = true ↔
      spec_bytewiseEq (Reader.as_slice ⟨⟨[5, 6]⟩⟩) [5]) ∧
    (sliceEqReader [5] ⟨⟨[5, 6]⟩⟩ = true ↔
      spec_bytewiseEq [5] (Reader.as_slice ⟨⟨[5, 6]⟩⟩)) ∧
    (Builder.eq ⟨⟨[5, 6]⟩⟩ ⟨⟨[7]⟩⟩ = true ↔
      spec_bytewiseEq (Builder.as_slice ⟨⟨[5, 6]⟩⟩) (Builder.as_slice ⟨⟨[7]⟩⟩)) ∧
    (Builder.eqReader ⟨⟨[5, 6]⟩⟩ ⟨⟨[5, 6]⟩⟩ = true ↔
      spec_bytewiseEq (Builder.as_slice ⟨⟨[5, 6]⟩⟩) (Reader.as_slice ⟨⟨[5, 6]⟩⟩)) ∧
    (Reader.eqBuilder ⟨⟨[5, 6]⟩⟩ ⟨⟨[5, 6]⟩⟩ = true ↔
      spec_bytewiseEq (Reader.as_slice ⟨⟨[5, 6]⟩⟩) (Builder.as_slice ⟨⟨[5, 6]⟩⟩)) ∧
    (Builder.eqSlice ⟨⟨[5, 6]⟩⟩ [5] = true ↔
      spec_bytewiseEq (Builder.as_slice ⟨⟨[5, 6]⟩⟩) [5]) ∧
    (sliceEqBuilder [5] ⟨⟨[5, 6]⟩⟩ = true ↔
      spec_bytewiseEq [5] (Builder.as_slice ⟨⟨[5, 6]⟩⟩)) ∧
    Reader.eq ⟨⟨[5, 6]⟩⟩ ⟨⟨[5, 6]⟩⟩ = true ∧
    Builder.eq ⟨⟨[5, 6]⟩⟩ ⟨⟨[5, 6]⟩⟩ = true ∧
    Reader.eq ⟨⟨[5, 6]⟩⟩ ⟨⟨[7]⟩⟩ = Reader.eq ⟨⟨[7]⟩⟩ ⟨⟨[5, 6]⟩⟩ ∧
    Builder.eq ⟨⟨[5, 6]⟩⟩ ⟨⟨[7]⟩⟩ = Builder.eq ⟨⟨[7]⟩⟩ ⟨⟨[5, 6]⟩⟩ ∧
    Builder.eqReader ⟨⟨[5, 6]⟩⟩ ⟨⟨[5, 6]⟩⟩ = Reader.eqBuilder ⟨⟨[5, 6]⟩⟩ ⟨⟨[5, 6]⟩⟩ ∧
    Builder.eqReader ⟨⟨[5, 6]⟩⟩ ⟨⟨[5, 6]⟩⟩ = true ∧
    Reader.eqBuilder ⟨⟨[5, 6]⟩⟩ ⟨⟨[5, 6]⟩⟩ = true :=
  eq_structural ⟨⟨[5, 6]⟩⟩ ⟨⟨[7]⟩⟩ ⟨⟨[5, 6]⟩⟩ ⟨⟨[7]⟩⟩ [5] [5, 6]

/-- C3: every view obtained through the module's constructors satisfies
`0 ≤ len ≤ MAX_BLOB_LEN` (the lower bound holds by the type of `len`),
the invariant is preserved by every operation, no operation changes a
view's length (writes through `as_slice_mut` mutate contents only), and
accessors perform no revalidation: `as_slice` and `len` are defined on
every handle, checked or not. -/
theorem length_invariant_spec (MAX : Nat) (s d : List Byte) (r : Reader)
    (b : Builder) (i : Nat) (v : Byte) :
    (Reader.try_from_slice MAX s = Except.ok r → ValidReader MAX r) ∧
    (Reader.from_slice MAX s = Except.ok r → ValidReader MAX r) ∧
    ValidReader MAX Reader.empty ∧
    ValidBuilder MAX Builder.empty ∧
    (ValidBuilder MAX b → ValidReader MAX (Builder.as_reader b)) ∧
    (ValidBuilder MAX b → ValidBuilder MAX (Builder.writeByte b i v)) ∧
    Builder.len (Builder.writeByte b i v) = Builder.len b ∧
    Reader.as_slice ⟨⟨d⟩⟩ = d ∧ Reader.len ⟨⟨d⟩⟩ = d.length := by
  refine ⟨?_, ?_, ?_, ?_, ?_, ?_, ?_, rfl, rfl⟩
  · intro h
    unfold Reader.try_from_slice BlobReader.new at h
    by_cases hle : s.length ≤ MAX
    · simp only [hle, if_pos] at h
      cases h
      exact hle
    · simp [hle] at h
  · intro h
    unfold Reader.from_slice BlobReader.new at h
    by_cases hle : s.length ≤ MAX
    · simp only [hle, if_pos] at h
      cases h
      exact hle
    · simp [hle] at h
  · exact Nat.zero_le MAX
  · exact Nat.zero_le MAX
  · intro h
    exact h
  · intro h
    simpa [ValidBuilder, Builder.len, Builder.writeByte, BlobBuilder.length,
      BlobBuilder.rawData] using h
  · simp [Builder.len, Builder.writeByte, BlobBuilder.length,
      BlobBuilder.rawData]

/-- Witness for C3 at `MAX = 4`, concrete views over `[1, 2]`. -/
theorem length_invariant_spec_witness :
    ValidReader 4 ⟨⟨[1, 2]⟩⟩ ∧
    ValidReader 4 Reader.empty ∧
    ValidBuilder 4 Builder.empty ∧
    ValidReader 4 (Builder.as_reader ⟨⟨[1, 2]⟩⟩) ∧
    ValidBuilder 4 (Builder.writeByte ⟨⟨[1, 2]⟩⟩ 1 9) ∧
    Builder.len (Builder.writeByte ⟨⟨[1, 2]⟩⟩ 1 9) = Builder.len ⟨⟨[1, 2]⟩⟩ ∧
    Reader.as_slice ⟨⟨[3]⟩⟩ = [3] ∧ Reader.len ⟨⟨[3]⟩⟩ = List.length [3] := by
  have h := length_invariant_spec 4 [1, 2] [3] ⟨⟨[1, 2]⟩⟩ ⟨⟨[1, 2]⟩⟩ 1 9
  have hvb : ValidBuilder 4 ⟨⟨[1, 2]⟩⟩ := by
    show Builder.len _ ≤ 4
    decide
  exact ⟨h.1 rfl, h.2.2.1, h.2.2.2.1, h.2.2.2.2.1 hvb, h.2.2.2.2.2.1 hvb,
    h.2.2.2.2.2.2.1, h.2.2.2.2.2.2.2.1, h.2.2.2.2.2.2.2.2⟩

/-- C4: `Reader::from_slice(s)` on a slice longer than `MAX_BLOB_LEN`
fails fatally with a diagnostic whose message contains "too large"; on
any slice with `len(s) ≤ MAX_BLOB_LEN` it succeeds without fault. The
panic is modelled as the error branch carrying the panic message. -/
theorem from_slice_spec (MAX : Nat) (s : List Byte) :
    (MAX < s.length →
      Reader.from_slice MAX s = Except.error fromSlicePanicMessage ∧
      ∃ pre post, fromSlicePanicMessage = pre ++ "too large" ++ post) ∧
    (s.length ≤ MAX → ∃ r, Reader.from_slice MAX s = Except.ok r) := by
  constructor
  · intro h
    refine ⟨?_, "slice is ", " to be contained within a cap'n proto message", rfl⟩
    simp [Reader.from_slice, BlobReader.new, Nat.not_le.mpr h]
  · intro h
    refine ⟨⟨⟨s⟩⟩, ?_⟩
    simp [Reader.from_slice, BlobReader.new, h]

/-- Witness for C4 at `MAX = 2`: an oversized and a legal slice. -/
theorem from_slice_spec_witness :
    (Reader.from_slice 2 [1, 2, 3] = Except.error fromSlicePanicMessage ∧
      ∃ pre post, fromSlicePanicMessage = pre ++ "too large" ++ post) ∧
    ∃ r, Reader.from_slice 2 [5, 6] = Except.ok r :=
  ⟨(from_slice_spec 2 [1, 2, 3]).1 (by decide),
   (from_slice_spec 2 [5, 6]).2 (by decide)⟩

/-- C5: read-after-write on a Builder: after writing `v` at a valid
index `i` through `as_slice_mut()`, `as_slice()[i] == v`, every other
index is unchanged, `len()` is unchanged, and the write is immediately
visible through `as_slice()` and `as_reader()` on the same view. -/
theorem builder_read_after_write (b : Builder) (i : Nat) (v : Byte)
    (h : i < Builder.len b) :
    (Builder.as_slice (Builder.writeByte b i v))[i]? = some v ∧
    (∀ j, j ≠ i → (Builder.as_slice (Builder.writeByte b i v))[j]? =
      (Builder.as_slice b)[j]?) ∧
    Builder.len (Builder.writeByte b i v) = Builder.len b ∧
    Reader.as_slice (Builder.as_reader (Builder.writeByte b i v)) =
      Builder.as_slice (Builder.writeByte b i v) ∧
    Reader.len (Builder.as_reader (Builder.writeByte b i v)) =
      Builder.len (Builder.writeByte b i v) := by
  refine ⟨?_, ?_, ?_, rfl, rfl⟩
  · simp only [Builder.as_slice, Builder.writeByte, BlobBuilder.rawData]
    exact List.getElem?_set_eq_of_lt v h
  · intro j hj
    simp only [Builder.as_slice, Builder.writeByte, BlobBuilder.rawData]
    exact List.getElem?_set_ne (fun he => hj he.symm)
  · simp [Builder.len, Builder.writeByte, BlobBuilder.length,
      BlobBuilder.rawData]

/-- Witness for C5: writing `9` at index `1` of a builder over
`[0, 0, 0, 0]`. -/
theorem builder_read_after_write_witness :
    (Builder.as_slice (Builder.writeByte ⟨⟨[0, 0, 0, 0]⟩⟩ 1 9))[1]? = some 9 ∧
    (Builder.as_slice (Builder.writeByte ⟨⟨[0, 0, 0, 0]⟩⟩ 1 9))[0]? =
      (Builder.as_slice ⟨⟨[0, 0, 0, 0]⟩⟩)[0]? ∧
    (Builder.as_slice (Builder.writeByte ⟨⟨[0, 0, 0, 0]⟩⟩ 1 9))[2]? =
      (Builder.as_slice ⟨⟨[0, 0, 0, 0]⟩⟩)[2]? ∧
    Builder.len (Builder.writeByte ⟨⟨[0, 0, 0, 0]⟩⟩ 1 9) =
      Builder.len ⟨⟨[0, 0, 0, 0]⟩⟩ ∧
    Reader.as_slice (Builder.as_reader (Builder.writeByte ⟨⟨[0, 0, 0, 0]⟩⟩ 1 9)) =
      Builder.as_slice (Builder.writeByte ⟨⟨[0, 0, 0, 0]⟩⟩ 1 9) ∧
    Reader.len (Builder.as_reader (Builder.writeByte ⟨⟨[0, 0, 0, 0]⟩⟩ 1 9)) =
      Builder.len (Builder.writeByte ⟨⟨[0, 0, 0, 0]⟩⟩ 1 9) := by
  have h := builder_read_after_write ⟨⟨[0, 0, 0, 0]⟩⟩ 1 9 (by decide)
  exact ⟨h.1, h.2.1 0 (by decide), h.2.1 2 (by decide), h.2.2.1, h.2.2.2.1,
    h.2.2.2.2⟩

/-- C6: `Builder::as_reader()` produces a Reader over the same bytes
(same pointer, same length), not a copy: its `as_slice()` equals the
builder's `as_slice()` at the same instant and its `len()` equals the
builder's `len()`. -/
theorem as_reader_aliases (b : Builder) :
    Reader.as_slice (Builder.as_reader b) = Builder.as_slice b ∧
    Reader.len (Builder.as_reader b) = Builder.len b :=
  ⟨rfl, rfl⟩

/-- C7: `Reader::empty()` and `Builder::empty()` have `len() == 0` and
`is_empty() == true`; the default Reader equals `Reader::empty()`; and
for every view of either kind `is_empty()` is true iff `len() == 0`. -/
theorem empty_default_spec (r : Reader) (b : Builder) :
    Reader.len Reader.empty = 0 ∧ Reader.is_empty Reader.empty = true ∧
    Builder.len Builder.empty = 0 ∧ Builder.is_empty Builder.empty = true ∧
    Reader.default = Reader.empty ∧
    (Reader.is_empty r = true ↔ Reader.len r = 0) ∧
    (Builder.is_empty b = true ↔ Builder.len b = 0) := by
  refine ⟨rfl, rfl, rfl, rfl, rfl, ?_, ?_⟩
  · simp [Reader.is_empty]
  · simp [Builder.is_empty]

/-- Witness for C7 at concrete one-byte views. -/
theorem empty_default_spec_witness :
    Reader.len Reader.empty = 0 ∧ Reader.is_empty Reader.empty = true ∧
    Builder.len Builder.empty = 0 ∧ Builder.is_empty Builder.empty = true ∧
    Reader.default = Reader.empty ∧
    (Reader.is_empty ⟨⟨[1]⟩⟩ = true ↔ Reader.len ⟨⟨[1]⟩⟩ = 0) ∧
    (Builder.is_empty ⟨⟨[1]⟩⟩ = true ↔ Builder.len ⟨⟨[1]⟩⟩ = 0) :=
  empty_default_spec ⟨⟨[1]⟩⟩ ⟨⟨[1]⟩⟩

/-- C8: `TryFromSliceError` is a unit value carrying no payload (all
its values are equal), its rendered display message is exactly
"attempted to create a data blob from too large a slice", and it is
produced by `try_from_slice` exactly when the requested byte length
exceeds the format's maximum blob size and by no other condition. -/
theorem try_from_slice_error_spec (MAX : Nat) (s : List Byte)
    (e1 e2 : TryFromSliceError) :
    e1 = e2 ∧
    TryFromSliceError.display e1 =
      "attempted to create a data blob from too large a slice" ∧
    ((∃ e, Reader.try_from_slice MAX s = Except.error e) ↔ MAX < s.length) := by
  refine ⟨?_, rfl, ?_⟩
  · cases e1
    cases e2
    rfl
  · unfold Reader.try_from_slice BlobReader.new
    by_cases hle : s.length ≤ MAX
    · simp [hle, Nat.not_lt.mpr hle]
    · simp only [hle, if_neg, Nat.lt_of_not_le hle, iff_true]
      exact ⟨⟨()⟩, rfl⟩

/-- Witness for C8 at `MAX = 1`, `s = [1, 2]`. -/
theorem try_from_slice_error_spec_witness :
    (⟨()⟩ : TryFromSliceError) = ⟨()⟩ ∧
    TryFromSliceError.display ⟨()⟩ =
      "attempted to create a data blob from too large a slice" ∧
    ((∃ e, Reader.try_from_slice 1 [1, 2] = Except.error e) ↔
      1 < List.length ([1, 2] : List Byte)) :=
  try_from_slice_error_spec 1 [1, 2] ⟨()⟩ ⟨()⟩

/-- C9: the blob type's declared list element size is the pointer
element size: `const ELEMENT_SIZE: ElementSize = ElementSize::Pointer`. -/
theorem element_size_is_pointer : Data.ELEMENT_SIZE = ElementSize.Pointer :=
  rfl

/-- C10: `Reader::from_slice` and `Reader::try_from_slice` agree on
every input: `from_slice` panics exactly when `try_from_slice` returns
`Err`, and whenever `try_from_slice` returns `Ok(r)`, `from_slice`
returns a Reader observationally equal to `r` (same `as_slice()` and
`len()`), both being decided by the same validating constructor
`ptr::Reader::new`. -/
theorem from_slice_agrees_with_try (MAX : Nat) (s : List Byte) :
    ((∃ m, Reader.from_slice MAX s = Except.error m) ↔
      (∃ e, Reader.try_from_slice MAX s = Except.error e)) ∧
    (∀ r, Reader.try_from_slice MAX s = Except.ok r →
      ∃ r2, Reader.from_slice MAX s = Except.ok r2 ∧
        Reader.as_slice r2 = Reader.as_slice r ∧
        Reader.len r2 = Reader.len r) := by
  unfold Reader.from_slice Reader.try_from_slice BlobReader.new
  by_cases hle : s.length ≤ MAX
  · rw [if_pos hle]
    constructor
    · simp
    · intro r hr
      cases hr
      exact ⟨⟨⟨s⟩⟩, rfl, rfl, rfl⟩
  · rw [if_neg hle]
    constructor
    · constructor
      · intro _
        exact ⟨⟨()⟩, rfl⟩
      · intro _
        exact ⟨fromSlicePanicMessage, rfl⟩
    · intro r hr
      simp at hr

/-- Witness for C10 at `MAX = 1` on a legal input. -/
theorem from_slice_agrees_with_try_witness :
    ((∃ m, Reader.from_slice 1 [7] = Except.error m) ↔
      (∃ e, Reader.try_from_slice 1 [7] = Except.error e)) ∧
    ∃ r2, Reader.from_slice 1 [7] = Except.ok r2 ∧
      Reader.as_slice r2 = Reader.as_slice ⟨⟨[7]⟩⟩ ∧
      Reader.len r2 = Reader.len ⟨⟨[7]⟩⟩ :=
  ⟨(from_slice_agrees_with_try 1 [7]).1,
   (from_slice_agrees_with_try 1 [7]).2 ⟨⟨[7]⟩⟩ rfl⟩

end Recapn
